import Mathlib

/-!
Verification development for the data-preparation pipeline of the
road-segmentation repository (`data_preparation.py`).

The program is a batch image tool with three functions:
* `crop_image`: reads one 800×800 TIFF and writes four 512×512 corner crops,
  named `{base}_{corner}.tiff` with the Indonesian corner labels
  `kiri_atas` (top-left), `kanan_atas` (top-right), `kiri_bawah` (bottom-left),
  `kanan_bawah` (bottom-right);
* `process_folder`: lists the input folder, filters case-insensitive
  `.tiff`/`.tif` names, crops each file and counts successes and failures;
* `rotate_images_in_folder`: re-lists the output folder and rotates each file
  in place according to which corner label its name contains
  (`kanan_atas` → 90° clockwise, `kanan_bawah` → 180°, `kiri_bawah` → 270°).

The shallow embedding below models images as rectangular grids of pixel
values (`List (List Nat)`, rows of pixels), folders as association lists from
file name to image (in listing order), and an unreadable/undecodable file as a
`none` payload (the `try/except` path of the source).  PIL's
`Image.crop((l, u, r, lo))` and `Image.rotate(angle, expand=False)` for the
angles −90, −180, −270 are modelled by `pilCrop` and `pilRotateCW90/180/270`:
`expand=False` keeps the canvas size, and the output pixel at `(x, y)` is the
source pixel at the inversely rotated position about the canvas centre
(0, PIL's black fill, outside the source).  Path joining by the driver is the
identity on plain file names, which is how the driver uses it.
-/

/-- An image: a list of rows, each row a list of pixel values. -/
def Img : Type := List (List Nat)

instance : DecidableEq Img := by
  unfold Img
  infer_instance

instance : Inhabited Img := ⟨([] : List (List Nat))⟩

/-- Height of an image (number of rows); second component of PIL `image.size`. -/
def imgHeight (img : Img) : Nat := List.length img

/-- Width of an image (length of the first row); first component of PIL `image.size`. -/
def imgWidth (img : Img) : Nat := (List.getD img 0 []).length

/-- Width and height of an image, as the pair `(width, height)` like PIL `image.size`. -/
def imgDims (img : Img) : Nat × Nat := (imgWidth img, imgHeight img)

/-- Pixel access at natural coordinates, 0 outside the image. -/
def getPixN (img : Img) (x y : Nat) : Nat := (List.getD img y []).getD x 0

/-- Pixel access at integer coordinates, 0 outside the image. -/
def getPixI (img : Img) (x y : Int) : Nat :=
  if 0 ≤ x ∧ 0 ≤ y then (List.getD img y.toNat []).getD x.toNat 0 else 0

/-- An image is rectangular when every row has the nominal width. -/
def isRect (img : Img) : Bool :=
  List.all img (fun row => row.length = imgWidth img)

/-- Build a `w×h` image whose pixel at column `x`, row `y` is `f x y`. -/
def mkGrid (w h : Nat) (f : Nat → Nat → Nat) : Img :=
  (List.range h).map fun y => (List.range w).map fun x => f x y

/-- Model of PIL `image.crop((l, u, r, lo))`: the `(r−l)×(lo−u)` sub-image whose
pixel `(x, y)` is the source pixel `(l+x, u+y)`. -/
def pilCrop (img : Img) (c : Nat × Nat × Nat × Nat) : Img :=
  let (l, u, r, lo) := c
  mkGrid (r - l) (lo - u) fun x y => getPixN img (l + x) (u + y)

/-- Model of PIL `image.rotate(-90, expand=False)`: 90° clockwise, same canvas.
The output pixel `(x, y)` samples the source at the inversely rotated position
about the canvas centre (exact quarter turn on the square canvases this
pipeline rotates). -/
def pilRotateCW90 (img : Img) : Img :=
  let w := imgWidth img
  let h := imgHeight img
  mkGrid w h fun x y =>
    getPixI img ((y : Int) + ((w : Int) - (h : Int)).fdiv 2)
      (((w : Int) + (h : Int)).fdiv 2 - 1 - (x : Int))

/-- Model of PIL `image.rotate(-180, expand=False)`: 180°, same canvas. -/
def pilRotateCW180 (img : Img) : Img :=
  let w := imgWidth img
  let h := imgHeight img
  mkGrid w h fun x y =>
    getPixI img ((w : Int) - 1 - (x : Int)) ((h : Int) - 1 - (y : Int))

/-- Model of PIL `image.rotate(-270, expand=False)`: 270° clockwise, same canvas. -/
def pilRotateCW270 (img : Img) : Img :=
  let w := imgWidth img
  let h := imgHeight img
  mkGrid w h fun x y =>
    getPixI img (((w : Int) + (h : Int)).fdiv 2 - 1 - (y : Int))
      ((x : Int) + ((h : Int) - (w : Int)).fdiv 2)

/-- Does `hay` contain `needle` as a contiguous sublist (Python `needle in hay`)? -/
def charListHas (hay needle : List Char) : Bool :=
  match hay with
  | [] => decide (needle = [])
  | _ :: t => decide (needle = hay.take needle.length) || charListHas t needle

/-- Python substring test `sub in s`. -/
def strContains (s sub : String) : Bool := charListHas s.data sub.data

/-- Python `s.lower()` (ASCII case is all the file names use). -/
def lowerStr (s : String) : String := String.mk (s.data.map Char.toLower)

/-- Python `s.endswith(suffixStr)`. -/
def strEndsWith (s suffixStr : String) : Bool :=
  decide (s.data.drop (s.data.length - suffixStr.data.length) = suffixStr.data)

/-- The extension filter of the source: `f.lower().endswith(('.tiff', '.tif'))`. -/
def isTiffName (name : String) : Bool :=
  strEndsWith (lowerStr name) ".tiff" || strEndsWith (lowerStr name) ".tif"

/-- Python `os.path.basename`: the part after the last slash. -/
def pyBasename (s : String) : String :=
  String.mk ((s.data.reverse.takeWhile (fun c => c ≠ '/')).reverse)

/-- Root part of Python `os.path.splitext`: everything before the last dot,
except that dots leading the name never start an extension. -/
def pySplitextRoot (s : String) : String :=
  let cs := s.data
  let lead := (cs.takeWhile (fun c => c = '.')).length
  let rest := cs.drop lead
  if rest.contains '.' then
    String.mk (cs.take lead ++ ((rest.reverse.dropWhile (fun c => c ≠ '.')).tail).reverse)
  else s

/-- The four crop rectangles of `crop_image`, in source order
(top-left, top-right, bottom-left, bottom-right), each `(left, upper, right, lower)`. -/
def crop_coords (width height crop_size : Nat) : List (Nat × Nat × Nat × Nat) :=
  [(0, 0, crop_size, crop_size),
   (width - crop_size, 0, width, crop_size),
   (0, height - crop_size, crop_size, height),
   (width - crop_size, height - crop_size, width, height)]

/-- The four corner labels of `crop_image`, in source order. -/
def crop_names : List String := ["kiri_atas", "kanan_atas", "kiri_bawah", "kanan_bawah"]

/-- Model of `crop_image(input_path, output_dir)`.  The file's decoded content
is passed as `Option Img`: `none` models `Image.open` raising (the `except`
path, return `False`).  A `none` result is the source's `False`; a `some outs`
result is `True` together with the `(name, image)` pairs written to the output
directory, in write order. -/
def crop_image (input_path : String) (content : Option Img) :
    Option (List (String × Img)) :=
  match content with
  | none => none
  | some image =>
    let width := imgWidth image
    let height := imgHeight image
    if width ≠ 800 ∨ height ≠ 800 then none
    else
      let base_name := pySplitextRoot (pyBasename input_path)
      some (((crop_coords width height 512).zip crop_names).map
        fun p => (base_name ++ "_" ++ p.2 ++ ".tiff", pilCrop image p.1))

/-- Write a file into a folder: overwrite the entry with that name, or append. -/
def writeFile (folder : List (String × Img)) (name : String) (img : Img) :
    List (String × Img) :=
  match folder with
  | [] => [(name, img)]
  | (n, i) :: rest =>
    if n = name then (n, img) :: rest else (n, i) :: writeFile rest name img

/-- Read a file from a folder (Python `Image.open` on an existing path). -/
def lookupFile (folder : List (String × Img)) (name : String) : Option Img :=
  match folder with
  | [] => none
  | (n, i) :: rest => if n = name then some i else lookupFile rest name

/-- Result of `process_folder`: the output folder contents, the two counters,
the number of TIFF files found, and whether the no-TIFF-files report
(`Tidak ada file TIFF ditemukan`) was the outcome. -/
structure ProcessResult where
  outputFolder : List (String × Img)
  successful : Nat
  failed : Nat
  totalTiff : Nat
  noFilesMessage : Bool
deriving DecidableEq

/-- One iteration of the `process_folder` loop body on the state
`(output folder, successful, failed)`. -/
def cropStep (st : List (String × Img) × Nat × Nat) (f : String × Option Img) :
    List (String × Img) × Nat × Nat :=
  match crop_image f.1 f.2 with
  | some outs => (outs.foldl (fun fo o => writeFile fo o.1 o.2) st.1,
                  st.2.1 + 1, st.2.2)
  | none => (st.1, st.2.1, st.2.2 + 1)

/-- Model of `process_folder(input_folder, output_folder)`.  The input folder
is the listing `input_files` (name and decoded content, `none` if unreadable);
the output folder starts empty (`os.makedirs`). -/
def process_folder (input_files : List (String × Option Img)) : ProcessResult :=
  let tiff_files := input_files.filter (fun f => isTiffName f.1)
  if tiff_files.isEmpty then ⟨[], 0, 0, 0, true⟩
  else
    let r := tiff_files.foldl cropStep ([], 0, 0)
    ⟨r.1, r.2.1, r.2.2, tiff_files.length, false⟩

/-- Result of `rotate_images_in_folder`: the folder contents, the three
per-label counters, plus the observable I/O trace: which files were opened
(`Image.open`), which were saved (`img_rotated.save`), and which raised
(the `except` path). -/
structure RotateResult where
  folder : List (String × Img)
  kanan_atas_count : Nat
  kanan_bawah_count : Nat
  kiri_bawah_count : Nat
  opened : List String
  written : List String
  errored : List String
deriving DecidableEq

/-- One iteration of the `rotate_images_in_folder` loop body.  `Image.open` is
called on every listed TIFF before any label test; the label tests then run in
source order (`kanan_atas`, `kanan_bawah`, `kiri_bawah`), and a failing open is
caught and the loop continues. -/
def rotateStep (st : RotateResult) (file : String) : RotateResult :=
  match lookupFile st.folder file with
  | none => { st with errored := st.errored ++ [file] }
  | some img =>
    let st := { st with opened := st.opened ++ [file] }
    if strContains file "kanan_atas" then
      { st with folder := writeFile st.folder file (pilRotateCW90 img),
                written := st.written ++ [file],
                kanan_atas_count := st.kanan_atas_count + 1 }
    else if strContains file "kanan_bawah" then
      { st with folder := writeFile st.folder file (pilRotateCW180 img),
                written := st.written ++ [file],
                kanan_bawah_count := st.kanan_bawah_count + 1 }
    else if strContains file "kiri_bawah" then
      { st with folder := writeFile st.folder file (pilRotateCW270 img),
                written := st.written ++ [file],
                kiri_bawah_count := st.kiri_bawah_count + 1 }
    else st

/-- Model of `rotate_images_in_folder(folder_path)`: list the folder, filter
TIFF names, and run the loop body over the listing. -/
def rotate_images_in_folder (folder : List (String × Img)) : RotateResult :=
  let files := folder.map Prod.fst
  let tiff_files := files.filter isTiffName
  tiff_files.foldl rotateStep ⟨folder, 0, 0, 0, [], [], []⟩

/-- The rotation decision as a function of the file name alone: the angle (in
clockwise degrees) that the loop body of `rotate_images_in_folder` selects. -/
def rotationAngle (file : String) : Option Nat :=
  if strContains file "kanan_atas" then some 90
  else if strContains file "kanan_bawah" then some 180
  else if strContains file "kiri_bawah" then some 270
  else none

/-- Apply a clockwise rotation angle chosen by `rotationAngle`. -/
def applyAngle (a : Nat) (img : Img) : Img :=
  if a = 90 then pilRotateCW90 img
  else if a = 180 then pilRotateCW180 img
  else if a = 270 then pilRotateCW270 img
  else img

/-- Model of the `__main__` driver: crop every input file, then rotate the
output folder. -/
def main_pipeline (input_files : List (String × Option Img)) :
    ProcessResult × RotateResult :=
  let pr := process_folder input_files
  (pr, rotate_images_in_folder pr.outputFolder)

/-- Name and dimensions of every file of a folder, in listing order. -/
def dimsOf (folder : List (String × Img)) : List (String × Nat × Nat) :=
  folder.map fun p => (p.1, imgDims p.2)

/-- A `w×h` image with every pixel 0 (used to instantiate theorems). -/
def constImg (w h : Nat) : Img := List.replicate h (List.replicate w 0)

example : pilRotateCW90 [[1, 2], [3, 4]] = [[3, 1], [4, 2]] := by decide
example : pilRotateCW180 [[1, 2], [3, 4]] = [[4, 3], [2, 1]] := by decide
example : pilRotateCW270 [[1, 2], [3, 4]] = [[2, 4], [1, 3]] := by decide
example : pilRotateCW90 (pilRotateCW90 [[1, 2], [3, 4]]) = pilRotateCW180 [[1, 2], [3, 4]] := by decide
example : pySplitextRoot (pyBasename "input_images/img1.tif") = "img1" := by decide
example : isTiffName "a.TIF" = true := by decide
example : isTiffName "a.png" = false := by decide
example : strContains "x_kanan_atas.tiff" "kanan_atas" = true := by decide
example : strContains "x_kiri_atas.tiff" "kanan_atas" = false := by decide

/-! ### Basic lemmas about the embedding -/

theorem imgHeight_mkGrid (w h : Nat) (f : Nat → Nat → Nat) :
    imgHeight (mkGrid w h f) = h := by
  simp [mkGrid, imgHeight]

theorem imgWidth_mkGrid (w h : Nat) (f : Nat → Nat → Nat) (hh : 0 < h) :
    imgWidth (mkGrid w h f) = w := by
  simp [mkGrid, imgWidth, List.getD_eq_getElem?_getD, List.getElem?_map,
    List.getElem?_range, hh]

theorem imgDims_mkGrid (img : Img) (f : Nat → Nat → Nat) :
    imgDims (mkGrid (imgWidth img) (imgHeight img) f) = imgDims img := by
  cases img with
  | nil => rfl
  | cons r t =>
    have hh : 0 < imgHeight (r :: t) := Nat.succ_pos _
    simp [imgDims, imgHeight_mkGrid, imgWidth_mkGrid _ _ _ hh]

theorem imgDims_pilRotateCW90 (img : Img) :
    imgDims (pilRotateCW90 img) = imgDims img :=
  imgDims_mkGrid img _

theorem imgDims_pilRotateCW180 (img : Img) :
    imgDims (pilRotateCW180 img) = imgDims img :=
  imgDims_mkGrid img _

theorem imgDims_pilRotateCW270 (img : Img) :
    imgDims (pilRotateCW270 img) = imgDims img :=
  imgDims_mkGrid img _

theorem getPixI_mkGrid (w h : Nat) (f : Nat → Nat → Nat) (x y : Int) :
    getPixI (mkGrid w h f) x y =
      if 0 ≤ x ∧ 0 ≤ y ∧ x < (w : Int) ∧ y < (h : Int) then f x.toNat y.toNat
      else 0 := by
  unfold getPixI mkGrid
  by_cases hx : 0 ≤ x
  · by_cases hy : 0 ≤ y
    · by_cases hyh : y < (h : Int)
      · have hyN : y.toNat < h := by omega
        by_cases hxw : x < (w : Int)
        · have hxN : x.toNat < w := by omega
          simp [List.getD_eq_getElem?_getD, List.getElem?_map, List.getElem?_range,
            hx, hy, hyN, hxN, hyh, hxw]
        · have hxN : (List.range w)[x.toNat]? = none :=
            List.getElem?_eq_none (by simp; omega)
          simp [List.getD_eq_getElem?_getD, List.getElem?_map, List.getElem?_range,
            hx, hy, hyN, hxN, hxw]
      · have hyN : (List.range h)[y.toNat]? = none :=
          List.getElem?_eq_none (by simp; omega)
        simp [List.getD_eq_getElem?_getD, List.getElem?_map, hx, hy, hyN, hyh]
    · simp [hy]
  · simp [hx]

theorem mkGrid_congr (w h : Nat) (f g : Nat → Nat → Nat)
    (hfg : ∀ x y, x < w → y < h → f x y = g x y) :
    mkGrid w h f = mkGrid w h g := by
  unfold mkGrid
  refine List.map_congr_left ?_
  intro y hy
  refine List.map_congr_left ?_
  intro x hx
  exact hfg x y (List.mem_range.mp hx) (List.mem_range.mp hy)

theorem append_corner_ne (b x y : String) (hxy : x ≠ y) :
    b ++ "_" ++ x ++ ".tiff" ≠ b ++ "_" ++ y ++ ".tiff" := by
  intro h
  apply hxy
  have h2 := congrArg String.data h
  simp only [String.data_append] at h2
  have h3 := List.append_cancel_right h2
  have h4 := List.append_cancel_left h3
  exact String.ext h4

theorem cropFold_append (st : List (String × Img) × Nat × Nat)
    (l1 l2 : List (String × Option Img)) :
    (l1 ++ l2).foldl cropStep st = l2.foldl cropStep (l1.foldl cropStep st) :=
  List.foldl_append ..

theorem rotateFold_append (st : RotateResult) (l1 l2 : List String) :
    (l1 ++ l2).foldl rotateStep st = l2.foldl rotateStep (l1.foldl rotateStep st) :=
  List.foldl_append ..

theorem cropStep_cases (st : List (String × Img) × Nat × Nat)
    (f : String × Option Img) :
    ((cropStep st f).2.1 = st.2.1 + 1 ∧ (cropStep st f).2.2 = st.2.2) ∨
    ((cropStep st f).2.1 = st.2.1 ∧ (cropStep st f).2.2 = st.2.2 + 1) := by
  cases h : crop_image f.1 f.2 <;> simp [cropStep, h]

theorem cropFold_counts (l : List (String × Option Img))
    (st : List (String × Img) × Nat × Nat) :
    (l.foldl cropStep st).2.1 + (l.foldl cropStep st).2.2
      = st.2.1 + st.2.2 + l.length := by
  induction l generalizing st with
  | nil => simp
  | cons f t ih =>
    rw [List.foldl_cons, ih]
    cases h : crop_image f.1 f.2 <;> simp [cropStep, h] <;> omega

theorem dimsOf_writeFile (folder : List (String × Img)) (name : String)
    (img imgNew : Img) (hl : lookupFile folder name = some img)
    (hd : imgDims imgNew = imgDims img) :
    dimsOf (writeFile folder name imgNew) = dimsOf folder := by
  induction folder with
  | nil => simp [lookupFile] at hl
  | cons p rest ih =>
    obtain ⟨n, i⟩ := p
    by_cases h : n = name
    · subst h
      simp [lookupFile] at hl
      subst hl
      simp [writeFile, dimsOf, hd]
    · have hl2 : lookupFile rest name = some img := by
        simpa [lookupFile, h] using hl
      simp [writeFile, h, dimsOf]
      simpa [dimsOf] using ih hl2

theorem dimsOf_rotateStep (st : RotateResult) (file : String) :
    dimsOf (rotateStep st file).folder = dimsOf st.folder := by
  unfold rotateStep
  cases hl : lookupFile st.folder file with
  | none => rfl
  | some img =>
    by_cases h1 : strContains file "kanan_atas"
    · simp only [h1, if_true]
      exact dimsOf_writeFile _ _ img _ hl (imgDims_pilRotateCW90 img)
    · by_cases h2 : strContains file "kanan_bawah"
      · simp only [h1, h2, if_false, if_true, Bool.false_eq_true]
        exact dimsOf_writeFile _ _ img _ hl (imgDims_pilRotateCW180 img)
      · by_cases h3 : strContains file "kiri_bawah"
        · simp only [h1, h2, h3, if_false, if_true, Bool.false_eq_true]
          exact dimsOf_writeFile _ _ img _ hl (imgDims_pilRotateCW270 img)
        · simp only [h1, h2, h3, if_false, Bool.false_eq_true]

theorem dimsOf_rotateFold (l : List String) (st : RotateResult) :
    dimsOf (l.foldl rotateStep st).folder = dimsOf st.folder := by
  induction l generalizing st with
  | nil => rfl
  | cons f t ih => rw [List.foldl_cons, ih, dimsOf_rotateStep]

theorem imgDims_pilCrop (img : Img) (l u r lo : Nat) (h : u < lo) :
    imgDims (pilCrop img (l, u, r, lo)) = (r - l, lo - u) := by
  have h0 : 0 < lo - u := by omega
  unfold pilCrop
  simp [imgDims, imgHeight_mkGrid, imgWidth_mkGrid _ _ _ h0]

/-! ### The claims -/

/-- C1: every 800×800 source image is cropped into exactly 4 output files, one
per corner label, each exactly 512×512, the pixel data being the crops at the
regions top-left `(0,0,512,512)`, top-right `(288,0,800,512)`, bottom-left
`(0,288,512,800)`, bottom-right `(288,288,800,800)`. -/
theorem crop_800_produces_four_512_crops (p : String) (img : Img)
    (hw : imgWidth img = 800) (hh : imgHeight img = 800) :
    ∃ outs : List (String × Img),
      crop_image p (some img) = some outs ∧
      outs.length = 4 ∧
      outs.map Prod.fst = crop_names.map
        (fun n => pySplitextRoot (pyBasename p) ++ "_" ++ n ++ ".tiff") ∧
      (outs.map Prod.fst).Nodup ∧
      (∀ o ∈ outs, imgDims o.2 = (512, 512)) ∧
      outs.map Prod.snd = (crop_coords 800 800 512).map (fun c => pilCrop img c) ∧
      crop_coords 800 800 512 =
        [(0, 0, 512, 512), (288, 0, 800, 512), (0, 288, 512, 800),
         (288, 288, 800, 800)] := by
  have hcc : crop_coords 800 800 512 =
      [(0, 0, 512, 512), (288, 0, 800, 512), (0, 288, 512, 800),
       (288, 288, 800, 800)] := rfl
  refine ⟨((crop_coords 800 800 512).zip crop_names).map
    (fun q => (pySplitextRoot (pyBasename p) ++ "_" ++ q.2 ++ ".tiff",
      pilCrop img q.1)), ?_, ?_, ?_, ?_, ?_, ?_, hcc⟩
  · simp [crop_image, hw, hh]
  · simp [hcc, crop_names]
  · simp [hcc, crop_names]
  · simp only [hcc, crop_names, List.zip_cons_cons, List.zip_nil_right,
      List.map_cons, List.map_nil, List.nodup_cons, List.mem_cons,
      List.mem_singleton, List.not_mem_nil, not_false_iff, List.nodup_nil,
      and_true, List.mem_nil_iff, or_false]
    refine ⟨?_, ?_, ?_⟩
    · push_neg
      exact ⟨append_corner_ne _ _ _ (by decide), append_corner_ne _ _ _ (by decide),
        append_corner_ne _ _ _ (by decide)⟩
    · push_neg
      exact ⟨append_corner_ne _ _ _ (by decide), append_corner_ne _ _ _ (by decide)⟩
    · exact append_corner_ne _ _ _ (by decide)
  · intro o ho
    simp only [hcc, crop_names, List.zip_cons_cons, List.zip_nil_right,
      List.map_cons, List.map_nil, List.mem_cons, List.not_mem_nil,
      or_false] at ho
    rcases ho with rfl | rfl | rfl | rfl
    · rw [imgDims_pilCrop img _ _ _ _ (by omega)]
    · rw [imgDims_pilCrop img _ _ _ _ (by omega)]
    · rw [imgDims_pilCrop img _ _ _ _ (by omega)]
    · rw [imgDims_pilCrop img _ _ _ _ (by omega)]
  · simp [hcc, crop_names]

/-- Witness for C1: the hypotheses hold at a concrete 800×800 image, and the
crop then succeeds with 4 outputs. -/
theorem crop_800_produces_four_512_crops_witness :
    imgWidth (constImg 800 800) = 800 ∧ imgHeight (constImg 800 800) = 800 ∧
    ∃ outs, crop_image "img1.tiff" (some (constImg 800 800)) = some outs ∧
      outs.length = 4 := by
  have hw : imgWidth (constImg 800 800) = 800 := by
    unfold constImg imgWidth
    rw [List.getD_eq_getElem?_getD, List.getElem?_replicate]
    norm_num
  have hh : imgHeight (constImg 800 800) = 800 := by
    unfold constImg imgHeight
    exact List.length_replicate ..
  obtain ⟨outs, h1, h2, -⟩ :=
    crop_800_produces_four_512_crops "img1.tiff" (constImg 800 800) hw hh
  exact ⟨hw, hh, outs, h1, h2⟩

/-- C4: a source image whose dimensions are not exactly 800×800 yields zero
output files (`crop_image` returns the failure indicator and writes nothing),
and the `process_folder` loop just counts the failure and continues with the
remaining files from an unchanged state. -/
theorem crop_dimension_mismatch_rejects (p : String) (img : Img)
    (hdim : imgWidth img ≠ 800 ∨ imgHeight img ≠ 800) :
    crop_image p (some img) = none ∧
    ∀ (st : List (String × Img) × Nat × Nat) (name : String)
      (rest : List (String × Option Img)),
      ((name, some img) :: rest).foldl cropStep st
        = rest.foldl cropStep (st.1, st.2.1, st.2.2 + 1) := by
  have hnone : ∀ q : String, crop_image q (some img) = none := by
    intro q
    simp only [crop_image]
    rw [if_pos hdim]
  refine ⟨hnone p, ?_⟩
  intro st name rest
  rw [List.foldl_cons]
  congr 1
  simp [cropStep, hnone name]

/-- Witness for C4: a 1×1 image trips the dimension check. -/
theorem crop_dimension_mismatch_rejects_witness :
    (imgWidth ([[1]] : Img) ≠ 800 ∨ imgHeight ([[1]] : Img) ≠ 800) ∧
    crop_image "bad.tiff" (some [[1]]) = none := by
  have hd : imgWidth ([[1]] : Img) ≠ 800 ∨ imgHeight ([[1]] : Img) ≠ 800 := by
    left; decide
  exact ⟨hd, (crop_dimension_mismatch_rejects "bad.tiff" [[1]] hd).1⟩

/-- C6: rotation never changes canvas dimensions — every file of the folder has
the same width and height after `rotate_images_in_folder` as before, and each
of the three modelled `expand=False` rotations preserves `imgDims`. -/
theorem rotate_preserves_dims (folder : List (String × Img)) :
    dimsOf (rotate_images_in_folder folder).folder = dimsOf folder ∧
    (∀ img, imgDims (pilRotateCW90 img) = imgDims img) ∧
    (∀ img, imgDims (pilRotateCW180 img) = imgDims img) ∧
    (∀ img, imgDims (pilRotateCW270 img) = imgDims img) := by
  refine ⟨?_, imgDims_pilRotateCW90, imgDims_pilRotateCW180,
    imgDims_pilRotateCW270⟩
  unfold rotate_images_in_folder
  exact dimsOf_rotateFold _ _

/-- C8: a per-file failure never aborts the batch.  Both loops are plain folds,
so processing a batch `l1 ++ l2` always continues into `l2`; a file whose crop
fails only bumps the failure counter and leaves the state otherwise unchanged;
a file whose open fails during rotation is only recorded as an error; and the
driver's counters always aggregate to the whole batch. -/
theorem batch_never_aborts (f : String × Option Img)
    (hf : crop_image f.1 f.2 = none) (rst : RotateResult) (file : String)
    (hr : lookupFile rst.folder file = none) :
    (∀ (st : List (String × Img) × Nat × Nat) (l1 l2 : List (String × Option Img)),
      (l1 ++ l2).foldl cropStep st = l2.foldl cropStep (l1.foldl cropStep st)) ∧
    (∀ st : List (String × Img) × Nat × Nat,
      cropStep st f = (st.1, st.2.1, st.2.2 + 1)) ∧
    (∀ (st : RotateResult) (l1 l2 : List String),
      (l1 ++ l2).foldl rotateStep st = l2.foldl rotateStep (l1.foldl rotateStep st)) ∧
    rotateStep rst file = { rst with errored := rst.errored ++ [file] } ∧
    (∀ input_files, (process_folder input_files).successful
        + (process_folder input_files).failed
        = (process_folder input_files).totalTiff) := by
  refine ⟨cropFold_append, fun st => by simp [cropStep, hf], rotateFold_append,
    ?_, ?_⟩
  · unfold rotateStep
    rw [hr]
  · intro input_files
    unfold process_folder
    by_cases h : (input_files.filter (fun f => isTiffName f.1)).isEmpty
    · simp [h]
    · simp only [h, if_false, Bool.false_eq_true]
      simpa using cropFold_counts (input_files.filter (fun f => isTiffName f.1)) ([], 0, 0)

/-- Witness for C8: an unreadable file and an empty rotate folder satisfy the
hypotheses, and the rotate step only records the error. -/
theorem batch_never_aborts_witness :
    crop_image "bad.tiff" none = none ∧
    lookupFile ([] : List (String × Img)) "x.tiff" = none ∧
    rotateStep ⟨[], 0, 0, 0, [], [], []⟩ "x.tiff"
      = ⟨[], 0, 0, 0, [], [], ["x.tiff"]⟩ := by
  refine ⟨rfl, rfl, ?_⟩
  have h := (batch_never_aborts ("bad.tiff", none) rfl ⟨[], 0, 0, 0, [], [], []⟩
    "x.tiff" rfl).2.2.2.1
  simpa using h

/-- C9: with zero qualifying files, the driver reports the no-files outcome and
does no further work: the crop phase produces nothing and counts nothing, and
the rotate phase over the (empty) output folder performs zero operations. -/
theorem no_tiff_files_noop (input_files : List (String × Option Img))
    (h : input_files.filter (fun f => isTiffName f.1) = []) :
    process_folder input_files = ⟨[], 0, 0, 0, true⟩ ∧
    rotate_images_in_folder (process_folder input_files).outputFolder
      = ⟨[], 0, 0, 0, [], [], []⟩ := by
  have h1 : process_folder input_files = ⟨[], 0, 0, 0, true⟩ := by
    unfold process_folder
    simp [h]
  refine ⟨h1, ?_⟩
  rw [h1]
  rfl

/-- Witness for C9: a folder with a single non-TIFF file has no qualifying
files, and the driver reports the no-op outcome. -/
theorem no_tiff_files_noop_witness :
    ([("a.png", some ([[0]] : Img))].filter (fun f => isTiffName f.1) = []) ∧
    process_folder [("a.png", some [[0]])] = ⟨[], 0, 0, 0, true⟩ := by
  have h : [("a.png", some ([[0]] : Img))].filter (fun f => isTiffName f.1) = [] := by
    decide
  exact ⟨h, (no_tiff_files_noop _ h).1⟩

/-- C10: the driver's success and failure counters partition the qualifying
files: their sum is the number of case-insensitive `.tiff`/`.tif` files found,
and each loop iteration bumps exactly one of the two counters by one. -/
theorem process_folder_counts (input_files : List (String × Option Img)) :
    (process_folder input_files).successful + (process_folder input_files).failed
      = (input_files.filter (fun f => isTiffName f.1)).length ∧
    ∀ (st : List (String × Img) × Nat × Nat) (f : String × Option Img),
      ((cropStep st f).2.1 = st.2.1 + 1 ∧ (cropStep st f).2.2 = st.2.2) ∨
      ((cropStep st f).2.1 = st.2.1 ∧ (cropStep st f).2.2 = st.2.2 + 1) := by
  refine ⟨?_, cropStep_cases⟩
  unfold process_folder
  by_cases h : (input_files.filter (fun f => isTiffName f.1)).isEmpty
  · simp [h, List.isEmpty_iff.mp h]
  · simp only [h, if_false, Bool.false_eq_true]
    simpa using cropFold_counts (input_files.filter (fun f => isTiffName f.1)) ([], 0, 0)

theorem fdiv_sub_self (n : Nat) : ((n : Int) - n).fdiv 2 = 0 := by
  simp [Int.zero_fdiv]

theorem fdiv_add_self (n : Nat) : ((n : Int) + n).fdiv 2 = n := by
  rw [← two_mul]
  exact Int.mul_fdiv_cancel_left _ (by norm_num)

theorem pilRotateCW90_square (img : Img) (hsq : imgHeight img = imgWidth img) :
    pilRotateCW90 img = mkGrid (imgWidth img) (imgWidth img)
      (fun x y => getPixI img (y : Int) ((imgWidth img : Int) - 1 - (x : Int))) := by
  simp only [pilRotateCW90, hsq, fdiv_sub_self, fdiv_add_self, add_zero]

theorem pilRotateCW180_square (img : Img) (hsq : imgHeight img = imgWidth img) :
    pilRotateCW180 img = mkGrid (imgWidth img) (imgWidth img)
      (fun x y => getPixI img ((imgWidth img : Int) - 1 - (x : Int))
        ((imgWidth img : Int) - 1 - (y : Int))) := by
  simp only [pilRotateCW180, hsq]

theorem rot90_rot90_square (img : Img) (hsq : imgHeight img = imgWidth img) :
    pilRotateCW90 (pilRotateCW90 img) = pilRotateCW180 img := by
  rcases Nat.eq_zero_or_pos (imgWidth img) with hw0 | hwpos
  · have h0 : imgHeight img = 0 := by rw [hsq, hw0]
    have hnil : img = [] := List.length_eq_zero.mp h0
    subst hnil
    rfl
  · have hA := pilRotateCW90_square img hsq
    have hinnerH : imgHeight (pilRotateCW90 img) = imgWidth img := by
      rw [hA, imgHeight_mkGrid]
    have hinnerW : imgWidth (pilRotateCW90 img) = imgWidth img := by
      rw [hA]
      exact imgWidth_mkGrid _ _ _ hwpos
    have hsq2 : imgHeight (pilRotateCW90 img) = imgWidth (pilRotateCW90 img) := by
      rw [hinnerH, hinnerW]
    rw [pilRotateCW90_square (pilRotateCW90 img) hsq2, hinnerW,
      pilRotateCW180_square img hsq]
    apply mkGrid_congr
    intro x y hx hy
    rw [hA, getPixI_mkGrid]
    rw [if_pos (by refine ⟨by omega, by omega, by omega, by omega⟩)]
    congr 1
    all_goals omega

/-- C7: the rotator detects the corner label by substring containment in the
source's fixed priority order `kanan_atas`, `kanan_bawah`, `kiri_bawah`
(top-right, bottom-right, bottom-left): whichever label matches first
determines the single rotation applied, even if later labels also occur in
the name. -/
theorem rotate_label_priority (st : RotateResult) (file : String) (img : Img)
    (hopen : lookupFile st.folder file = some img) :
    (strContains file "kanan_atas" = true →
      rotateStep st file =
        { st with folder := writeFile st.folder file (pilRotateCW90 img),
                  opened := st.opened ++ [file],
                  written := st.written ++ [file],
                  kanan_atas_count := st.kanan_atas_count + 1 }) ∧
    (strContains file "kanan_atas" = false →
      strContains file "kanan_bawah" = true →
      rotateStep st file =
        { st with folder := writeFile st.folder file (pilRotateCW180 img),
                  opened := st.opened ++ [file],
                  written := st.written ++ [file],
                  kanan_bawah_count := st.kanan_bawah_count + 1 }) ∧
    (strContains file "kanan_atas" = false →
      strContains file "kanan_bawah" = false →
      strContains file "kiri_bawah" = true →
      rotateStep st file =
        { st with folder := writeFile st.folder file (pilRotateCW270 img),
                  opened := st.opened ++ [file],
                  written := st.written ++ [file],
                  kiri_bawah_count := st.kiri_bawah_count + 1 }) := by
  refine ⟨?_, ?_, ?_⟩
  · intro h1
    unfold rotateStep
    rw [hopen]
    simp [h1]
  · intro h1 h2
    unfold rotateStep
    rw [hopen]
    simp [h1, h2]
  · intro h1 h2 h3
    unfold rotateStep
    rw [hopen]
    simp [h1, h2, h3]

/-- Witness for C7: an adversarial name containing both `kanan_atas` and
`kanan_bawah` gets the first match in priority order, a single 90° rotation. -/
theorem rotate_label_priority_witness :
    strContains "z_kanan_atas_kanan_bawah.tiff" "kanan_atas" = true ∧
    strContains "z_kanan_atas_kanan_bawah.tiff" "kanan_bawah" = true ∧
    rotateStep ⟨[("z_kanan_atas_kanan_bawah.tiff", [[1]])], 0, 0, 0, [], [], []⟩
        "z_kanan_atas_kanan_bawah.tiff"
      = ⟨[("z_kanan_atas_kanan_bawah.tiff", pilRotateCW90 [[1]])], 1, 0, 0,
         ["z_kanan_atas_kanan_bawah.tiff"], ["z_kanan_atas_kanan_bawah.tiff"],
         []⟩ := by
  refine ⟨by decide, by decide, ?_⟩
  have h := (rotate_label_priority
    ⟨[("z_kanan_atas_kanan_bawah.tiff", [[1]])], 0, 0, 0, [], [], []⟩
    "z_kanan_atas_kanan_bawah.tiff" [[1]] (by decide)).1 (by decide)
  simpa [writeFile] using h

/-- C2 counterexample: a top-left (`kiri_atas`) file IS opened by the rotate
phase — `Image.open` runs before any label test (source line 131) — so its
name appears in the open trace, contradicting the claim's "not even opened";
the file is nevertheless byte-for-byte unchanged and never written. -/
theorem rotate_opens_top_left_counterexample :
    (rotate_images_in_folder [("a_kiri_atas.tiff", [[1]])]).opened
        = ["a_kiri_atas.tiff"] ∧
    (rotate_images_in_folder [("a_kiri_atas.tiff", [[1]])]).folder
        = [("a_kiri_atas.tiff", [[1]])] ∧
    (rotate_images_in_folder [("a_kiri_atas.tiff", [[1]])]).written = [] := by
  refine ⟨by decide, by decide, by decide⟩

/-- C2 (amended): for every qualifying file the rotation applied is determined
by the corner label in the name — `kanan_atas` (top-right) 90° clockwise,
`kanan_bawah` (bottom-right) 180°, `kiri_bawah` (bottom-left) 270°, labels
tested in that order — and a file with no rotating label (in particular a
top-left `kiri_atas` file) is left byte-for-byte unchanged with zero writes;
however every qualifying file, top-left included, is opened. -/
theorem rotate_by_label_amended (file : String) (img : Img)
    (htiff : isTiffName file = true) :
    (strContains file "kanan_atas" = true →
      rotate_images_in_folder [(file, img)]
        = ⟨[(file, pilRotateCW90 img)], 1, 0, 0, [file], [file], []⟩) ∧
    (strContains file "kanan_atas" = false →
      strContains file "kanan_bawah" = true →
      rotate_images_in_folder [(file, img)]
        = ⟨[(file, pilRotateCW180 img)], 0, 1, 0, [file], [file], []⟩) ∧
    (strContains file "kanan_atas" = false →
      strContains file "kanan_bawah" = false →
      strContains file "kiri_bawah" = true →
      rotate_images_in_folder [(file, img)]
        = ⟨[(file, pilRotateCW270 img)], 0, 0, 1, [file], [file], []⟩) ∧
    (strContains file "kanan_atas" = false →
      strContains file "kanan_bawah" = false →
      strContains file "kiri_bawah" = false →
      rotate_images_in_folder [(file, img)]
        = ⟨[(file, img)], 0, 0, 0, [file], [], []⟩) := by
  refine ⟨?_, ?_, ?_, ?_⟩
  · intro h1
    simp [rotate_images_in_folder, rotateStep, lookupFile, writeFile, htiff, h1]
  · intro h1 h2
    simp [rotate_images_in_folder, rotateStep, lookupFile, writeFile, htiff, h1, h2]
  · intro h1 h2 h3
    simp [rotate_images_in_folder, rotateStep, lookupFile, writeFile, htiff,
      h1, h2, h3]
  · intro h1 h2 h3
    simp [rotate_images_in_folder, rotateStep, lookupFile, writeFile, htiff,
      h1, h2, h3]

/-- Witness for C2 (amended): a single-file folder with a `kiri_atas` name is
opened, unchanged and unwritten. -/
theorem rotate_by_label_amended_witness :
    isTiffName "a_kiri_atas.tiff" = true ∧
    rotate_images_in_folder [("a_kiri_atas.tiff", ([[1]] : Img))]
      = ⟨[("a_kiri_atas.tiff", [[1]])], 0, 0, 0, ["a_kiri_atas.tiff"], [], []⟩ := by
  refine ⟨by decide, ?_⟩
  exact (rotate_by_label_amended "a_kiri_atas.tiff" [[1]] (by decide)).2.2.2
    (by decide) (by decide) (by decide)

/-- C3 counterexample: a folder whose single file has a rotating label
(`kanan_atas`) but rotation-symmetric pixel data: the file is rotated again on
the second run (the counter is 1 each time), yet the folder state after two
runs is byte-for-byte EQUAL to the state after one run, contradicting the
universally quantified "different folder state". -/
theorem rotate_twice_equal_once_counterexample :
    strContains "b_kanan_atas.tiff" "kanan_atas" = true ∧
    (rotate_images_in_folder [("b_kanan_atas.tiff", [[7, 7], [7, 7]])]).kanan_atas_count = 1 ∧
    (rotate_images_in_folder
        (rotate_images_in_folder
          [("b_kanan_atas.tiff", [[7, 7], [7, 7]])]).folder).kanan_atas_count = 1 ∧
    (rotate_images_in_folder
        (rotate_images_in_folder
          [("b_kanan_atas.tiff", [[7, 7], [7, 7]])]).folder).folder
      = (rotate_images_in_folder [("b_kanan_atas.tiff", [[7, 7], [7, 7]])]).folder := by
  refine ⟨by decide, by decide, by decide, by decide⟩

/-- C3 (amended): the rotate phase is not idempotent in general — it composes
rotations rather than skipping already-rotated files: on a square image a
second 90° clockwise rotation yields the 180° rotation of the original, and
there exist folders (any non-rotation-symmetric content, e.g. pixel data
`[[1,2],[3,4]]`) on which running the phase twice produces a different folder
state than running it once; only rotation-symmetric pixel data coincides. -/
theorem rotate_twice_not_idempotent_amended (img : Img)
    (hsq : imgHeight img = imgWidth img) :
    pilRotateCW90 (pilRotateCW90 img) = pilRotateCW180 img ∧
    (rotate_images_in_folder
        (rotate_images_in_folder
          [("b_kanan_atas.tiff", [[1, 2], [3, 4]])]).folder).folder
      ≠ (rotate_images_in_folder [("b_kanan_atas.tiff", [[1, 2], [3, 4]])]).folder := by
  exact ⟨rot90_rot90_square img hsq, by decide⟩

/-- Witness for C3 (amended) at the concrete square image `[[1,2],[3,4]]`:
rotating it 90° twice equals rotating it 180°. -/
theorem rotate_twice_not_idempotent_amended_witness :
    imgHeight ([[1, 2], [3, 4]] : Img) = imgWidth ([[1, 2], [3, 4]] : Img) ∧
    pilRotateCW90 (pilRotateCW90 [[1, 2], [3, 4]]) = pilRotateCW180 [[1, 2], [3, 4]] := by
  exact ⟨by decide, (rotate_twice_not_idempotent_amended [[1, 2], [3, 4]] (by decide)).1⟩

/-- C5: every output file of a successful crop is named
`{base}_{label}.tiff` — the base from `splitext(basename(input))`, the
extension fixed to the TIFF container — and the file name is the sole channel
that decides the later rotation: the rotate loop's effect on an opened file's
folder entry is exactly `rotationAngle` of its name applied to its current
content. -/
theorem crop_naming_contract (p : String) (img : Img)
    (hw : imgWidth img = 800) (hh : imgHeight img = 800) :
    (∃ outs, crop_image p (some img) = some outs ∧
      outs.map Prod.fst = crop_names.map
        (fun n => pySplitextRoot (pyBasename p) ++ "_" ++ n ++ ".tiff")) ∧
    (∀ (st : RotateResult) (file : String) (img1 : Img),
      lookupFile st.folder file = some img1 →
      (rotateStep st file).folder =
        match rotationAngle file with
        | some a => writeFile st.folder file (applyAngle a img1)
        | none => st.folder) := by
  constructor
  · refine ⟨((crop_coords 800 800 512).zip crop_names).map
      (fun q => (pySplitextRoot (pyBasename p) ++ "_" ++ q.2 ++ ".tiff",
        pilCrop img q.1)), ?_, ?_⟩
    · simp [crop_image, hw, hh]
    · simp [crop_coords, crop_names]
  · intro st file img1 hopen
    unfold rotateStep rotationAngle applyAngle
    rw [hopen]
    by_cases h1 : strContains file "kanan_atas"
    · simp [h1]
    · by_cases h2 : strContains file "kanan_bawah"
      · simp [h1, h2]
      · by_cases h3 : strContains file "kiri_bawah"
        · simp [h1, h2, h3]
        · simp [h1, h2, h3]

/-- Witness for C5 at a concrete 800×800 image: the four output names are the
base `img1` joined with each corner label and the `.tiff` extension. -/
theorem crop_naming_contract_witness :
    imgWidth (constImg 800 800) = 800 ∧ imgHeight (constImg 800 800) = 800 ∧
    ∃ outs, crop_image "img1.tiff" (some (constImg 800 800)) = some outs ∧
      outs.map Prod.fst =
        ["img1_kiri_atas.tiff", "img1_kanan_atas.tiff",
         "img1_kiri_bawah.tiff", "img1_kanan_bawah.tiff"] := by
  have hw : imgWidth (constImg 800 800) = 800 := by
    unfold constImg imgWidth
    rw [List.getD_eq_getElem?_getD, List.getElem?_replicate]
    norm_num
  have hh : imgHeight (constImg 800 800) = 800 := by
    unfold constImg imgHeight
    exact List.length_replicate ..
  obtain ⟨outs, h1, h2⟩ := (crop_naming_contract "img1.tiff" _ hw hh).1
  refine ⟨hw, hh, outs, h1, ?_⟩
  rw [h2]
  decide
